import Mathlib

/-!
Verification of the client-side request-and-render pipeline of
`src/static/js/dashboard.js` (business-intelligence dashboard front end).

The development shallowly embeds the parts of the source that the checked
properties talk about:

* the shared debounce timer (`debouncedApplyFilters` / `debouncedLoadComparison`,
  dashboard.js lines 59-73) as an interpreter `runDebounce` over timed
  notification events;
* the request lifecycle of `applyFilters` (lines 394-466), `loadComparison`
  (lines 841-897), `refreshInsights` (lines 476-491) and `exportData`
  (lines 1042-1070) as a step function `step` over an explicit `AppState`,
  driven by scheduler actions (issue / resolve / reject per request);
* the chart cache and tab switching (`cachedChartData`, `showChart`,
  `loadMapData`, lines 391-553 and 724-739) as pure functions on `ChartState`;
* the bulk load with its retry policy (`loadData`, lines 166-227) as a
  recursion `loadDataRun` over the list of per-attempt network outcomes;
* the currency formatter (`formatCurrency`, lines 982-991) and the filter
  controls (`getFilters`, `resetFilters`, lines 376-389 and 1020-1039) as
  pure functions.

Machine integers of the source are modelled as `Nat` / `Int`; payloads of
requests and chart series are abstracted to `Nat` tags (the code treats them
as opaque JSON). Fallible steps are total functions whose failure branches
mirror the catch blocks of the source.
-/

/-- Operation classes of backend requests issued by the dashboard. -/
inductive OpClass where
  | filterApply
  | comparisonLoad
  | insightsRefresh
  | exportOp
  deriving DecidableEq, Repr

/-! ## Debounce model

`debouncedApplyFilters` and `debouncedLoadComparison` (dashboard.js 59-73)
both call `clearTimeout(filterDebounceTimer)` on the same module-level
variable and then schedule their own action 300 ms later.  A notification is
an event with a wall-clock time, the class of the helper that ran, and the
value of the corresponding filter controls right after the event.  The timer
scheduled by an event survives exactly when no later notification (of either
class, since the timer variable is shared) arrives strictly before its fire
time; a surviving timer fires its action, which reads the then-current
control state, i.e. the value carried by that event. -/

/-- Notification event fed to the shared debounce timer: time of the event,
class of the debounced helper that was invoked, and the value of that class
filter controls after the event. -/
structure NotifyEvent where
  t : Nat
  c : OpClass
  v : Nat
  deriving DecidableEq, Repr

/-- Interpreter of a time-ordered list of notifications through the shared
300 ms debounce timer of dashboard.js 59-73: returns the downstream fetches
that actually fire, each with the control state it reads. -/
def runDebounce : List NotifyEvent → List (OpClass × Nat)
  | [] => []
  | [e] => [(e.c, e.v)]
  | e :: e2 :: rest =>
    if e.t + 300 ≤ e2.t then (e.c, e.v) :: runDebounce (e2 :: rest)
    else runDebounce (e2 :: rest)

/-! ## Filter controls, getFilters and resetFilters -/

/-- State of the filter and comparison controls read or written by
`getFilters` and `resetFilters`.  Multi-select controls are `Option`-valued:
`none` models a jQuery `.val()` of `null` (cleared selection), which
`getFilters` defends against with `|| []`. -/
structure FilterUI where
  periodType : String
  year : String
  fy : String
  quarter : String
  states : Option (List String)
  districts : Option (List String)
  rbms : Option (List String)
  bdms : Option (List String)
  branches : Option (List String)
  brands : Option (List String)
  comparisonType : String
  period1 : String
  period2 : String
  comparisonDimension : String
  compRbms : Option (List String)
  compStates : Option (List String)
  compBrands : Option (List String)
  compBranches : Option (List String)
  deriving DecidableEq, Repr

/-- FilterSelection payload built by `getFilters` (dashboard.js 376-389). -/
structure FilterSelection where
  period_type : String
  year : String
  fy : String
  quarter : String
  states : List String
  districts : List String
  rbms : List String
  bdms : List String
  branches : List String
  brands : List String
  deriving DecidableEq, Repr

/-- Embedding of `getFilters` (dashboard.js 376-389): reads the controls,
replacing a null multi-select value by the empty list. -/
def getFilters (u : FilterUI) : FilterSelection :=
  { period_type := u.periodType
    year := u.year
    fy := u.fy
    quarter := u.quarter
    states := u.states.getD []
    districts := u.districts.getD []
    rbms := u.rbms.getD []
    bdms := u.bdms.getD []
    branches := u.branches.getD []
    brands := u.brands.getD [] }

/-- State transform of `resetFilters` (dashboard.js 1020-1039): every filter
and comparison control is set back to its default value. -/
def resetFilters (u : FilterUI) : FilterUI :=
  { u with
    periodType := ""
    year := ""
    fy := ""
    quarter := ""
    states := none
    districts := none
    rbms := none
    bdms := none
    branches := none
    brands := none
    comparisonType := "year"
    period1 := ""
    period2 := ""
    comparisonDimension := "Overall"
    compRbms := none
    compStates := none
    compBrands := none
    compBranches := none }

/-- FilterSelection produced by `getFilters` right after a reset. -/
def defaultSelection : FilterSelection :=
  { period_type := ""
    year := ""
    fy := ""
    quarter := ""
    states := []
    districts := []
    rbms := []
    bdms := []
    branches := []
    brands := [] }

/-- Notifications emitted by one `resetFilters` call at time `t`:
line 1029 triggers `change` on the six single-view multi-selects, each bound
to `debouncedApplyFilters` (line 33), and line 1035 triggers `change` on the
four comparison multi-selects, each bound to `debouncedLoadComparison`
(line 36).  All ten run back to back at the same time. -/
def resetNotifyEvents (t : Nat) : List NotifyEvent :=
  [⟨t, .filterApply, 0⟩, ⟨t, .filterApply, 0⟩, ⟨t, .filterApply, 0⟩,
   ⟨t, .filterApply, 0⟩, ⟨t, .filterApply, 0⟩, ⟨t, .filterApply, 0⟩,
   ⟨t, .comparisonLoad, 0⟩, ⟨t, .comparisonLoad, 0⟩,
   ⟨t, .comparisonLoad, 0⟩, ⟨t, .comparisonLoad, 0⟩]

/-- Number of `applyFilters` invocations caused by one `resetFilters` call at
time `t`: the direct call at line 1037 plus every debounced filter-apply
fetch that eventually fires from the change triggers. -/
def resetFilterApplyCalls (t : Nat) : Nat :=
  1 + ((runDebounce (resetNotifyEvents t)).filter
        (fun f => decide (f.1 = OpClass.filterApply))).length

/-! ## Request lifecycle model

`AppState` carries the module-level mutable state of dashboard.js that the
interactive requests touch: `dataLoaded` (line 5), `pendingRequest`
(line 10, an `AbortController` or null), and bookkeeping for the requests in
flight.  `applied` records, newest first, every successful response applied
to the screen and to `cachedChartData` (for `applyFilters` the KPI, chart
cache and table writes all sit in one success block, lines 416-456, so a
single entry per response is faithful); `toasts` records the notifications
shown by `showToast`.  Requests are tagged with the value of the controls
they serialized. -/

/-- Module-level state of dashboard.js relevant to interactive requests. -/
structure AppState where
  dataLoaded : Bool
  pendingRequest : Option Nat
  nextId : Nat
  aborted : List Nat
  inflight : List (Nat × OpClass × Nat)
  applied : List (OpClass × Nat)
  toasts : List String
  deriving DecidableEq, Repr

/-- Initial module state (dashboard.js 5-10). -/
def initState : AppState :=
  { dataLoaded := false
    pendingRequest := none
    nextId := 0
    aborted := []
    inflight := []
    applied := []
    toasts := [] }

/-- Response-to-request matching: class and payload of the in-flight request
with the given id, if any. -/
def lookupReq (id : Nat) (l : List (Nat × OpClass × Nat)) :
    Option (OpClass × Nat) :=
  (l.find? (fun r => decide (r.1 = id))).map (fun r => r.2)

/-- Removal of a settled request from the in-flight list. -/
def removeReq (id : Nat) (l : List (Nat × OpClass × Nat)) :
    List (Nat × OpClass × Nat) :=
  l.filter (fun r => decide (r.1 ≠ id))

/-- Toast shown by `exportData` on failure (dashboard.js 1064 and 1068). -/
def toastExportError : String := "Export failed. Please try again."

/-- Toast shown by `exportData` on success (dashboard.js 1062). -/
def toastExportSuccess : String := "Data exported successfully!"

/-- Toast shown by `refreshInsights` on success (dashboard.js 487). -/
def toastInsightsRefreshed : String := "Insights refreshed!"

/-- Synchronous prefix of `applyFilters` (dashboard.js 394-404): return
early unless `dataLoaded`; otherwise abort the controller held in
`pendingRequest` (if any), store a fresh controller there, and issue the
`/api/dashboard` request. -/
def applyFiltersIssue (v : Nat) (s : AppState) : AppState :=
  if s.dataLoaded = true then
    { s with
      aborted := (match s.pendingRequest with
                  | some i => i :: s.aborted
                  | none => s.aborted)
      pendingRequest := some s.nextId
      inflight := (s.nextId, OpClass.filterApply, v) :: s.inflight
      nextId := s.nextId + 1 }
  else s

/-- Success continuation of `applyFilters` (dashboard.js 414-456): runs when
the fetch promise resolves, which the browser guarantees only for a request
whose controller was never aborted; applies KPIs, chart cache and table from
the response, and the `finally` (line 464) nulls `pendingRequest`. -/
def applyFiltersResolve (id : Nat) (s : AppState) : AppState :=
  match lookupReq id s.inflight with
  | some (OpClass.filterApply, v) =>
    if id ∈ s.aborted then s
    else
      { s with
        applied := (OpClass.filterApply, v) :: s.applied
        inflight := removeReq id s.inflight
        pendingRequest := none }
  | _ => s

/-- Failure continuation of `applyFilters` (dashboard.js 458-465): the catch
block only logs and hides the loading indicator, applying nothing; the
`finally` nulls `pendingRequest` unconditionally, even when a newer request
has since stored its own controller there. -/
def applyFiltersReject (id : Nat) (s : AppState) : AppState :=
  { s with
    inflight := removeReq id s.inflight
    pendingRequest := none }

/-- Synchronous prefix of `loadComparison` (dashboard.js 841-884): return
early unless `dataLoaded`; otherwise issue the `/api/comparison` request.
No `AbortController` is created and `pendingRequest` is not touched. -/
def loadComparisonIssue (v : Nat) (s : AppState) : AppState :=
  if s.dataLoaded = true then
    { s with
      inflight := (s.nextId, OpClass.comparisonLoad, v) :: s.inflight
      nextId := s.nextId + 1 }
  else s

/-- Success continuation of `loadComparison` (dashboard.js 887-892): renders
comparison KPIs, chart and table from the one response object. -/
def loadComparisonResolve (id : Nat) (s : AppState) : AppState :=
  match lookupReq id s.inflight with
  | some (OpClass.comparisonLoad, v) =>
    { s with
      applied := (OpClass.comparisonLoad, v) :: s.applied
      inflight := removeReq id s.inflight }
  | _ => s

/-- Failure continuation of `loadComparison` (dashboard.js 893-896): logs
and hides the loading overlay only. -/
def loadComparisonReject (id : Nat) (s : AppState) : AppState :=
  { s with inflight := removeReq id s.inflight }

/-- Synchronous prefix of `refreshInsights` (dashboard.js 476-482): issues
the `/api/insights` request with no `dataLoaded` gate and no controller. -/
def refreshInsightsIssue (v : Nat) (s : AppState) : AppState :=
  { s with
    inflight := (s.nextId, OpClass.insightsRefresh, v) :: s.inflight
    nextId := s.nextId + 1 }

/-- Success continuation of `refreshInsights` (dashboard.js 484-489):
updates the insight cards and shows a success toast. -/
def refreshInsightsResolve (id : Nat) (s : AppState) : AppState :=
  match lookupReq id s.inflight with
  | some (OpClass.insightsRefresh, v) =>
    { s with
      applied := (OpClass.insightsRefresh, v) :: s.applied
      inflight := removeReq id s.inflight
      toasts := toastInsightsRefreshed :: s.toasts }
  | _ => s

/-- Failure continuation of `refreshInsights` (dashboard.js 490): logs to
the console only. -/
def refreshInsightsReject (id : Nat) (s : AppState) : AppState :=
  { s with inflight := removeReq id s.inflight }

/-- Synchronous prefix of `exportData` (dashboard.js 1042-1050): issues the
`/api/export` request; there is no `dataLoaded` check. -/
def exportDataIssue (v : Nat) (s : AppState) : AppState :=
  { s with
    inflight := (s.nextId, OpClass.exportOp, v) :: s.inflight
    nextId := s.nextId + 1 }

/-- Success continuation of `exportData` (dashboard.js 1052-1062): downloads
the blob and shows a success toast; dashboard state is untouched. -/
def exportDataResolve (id : Nat) (s : AppState) : AppState :=
  match lookupReq id s.inflight with
  | some (OpClass.exportOp, _) =>
    { s with
      inflight := removeReq id s.inflight
      toasts := toastExportSuccess :: s.toasts }
  | _ => s

/-- Failure continuation of `exportData` (dashboard.js 1063-1069): both the
non-ok branch and the catch show a failure toast. -/
def exportDataReject (id : Nat) (s : AppState) : AppState :=
  { s with
    inflight := removeReq id s.inflight
    toasts := toastExportError :: s.toasts }

/-- Scheduler actions: the UI event loop issuing a request (with the control
value it serializes) or the network settling a request by id.  `resolve`
actions model a `success:true` response, `reject` actions model every other
settlement (abort, transport error, server error, `success:false` body). -/
inductive UIAction where
  | bulkLoadSuccess
  | issueFilter (v : Nat)
  | issueComparison (v : Nat)
  | issueInsights (v : Nat)
  | issueExport (v : Nat)
  | resolveFilter (id : Nat)
  | rejectFilter (id : Nat)
  | resolveComparison (id : Nat)
  | rejectComparison (id : Nat)
  | resolveInsights (id : Nat)
  | rejectInsights (id : Nat)
  | resolveExport (id : Nat)
  | rejectExport (id : Nat)
  deriving DecidableEq, Repr

/-- One step of the single-threaded event loop.  `bulkLoadSuccess` is the
`dataLoaded = true` assignment of the `loadData` success branch
(dashboard.js 197); the bulk load itself is modelled by `loadDataRun`. -/
def step (s : AppState) (a : UIAction) : AppState :=
  match a with
  | .bulkLoadSuccess => { s with dataLoaded := true }
  | .issueFilter v => applyFiltersIssue v s
  | .issueComparison v => loadComparisonIssue v s
  | .issueInsights v => refreshInsightsIssue v s
  | .issueExport v => exportDataIssue v s
  | .resolveFilter id => applyFiltersResolve id s
  | .rejectFilter id => applyFiltersReject id s
  | .resolveComparison id => loadComparisonResolve id s
  | .rejectComparison id => loadComparisonReject id s
  | .resolveInsights id => refreshInsightsResolve id s
  | .rejectInsights id => refreshInsightsReject id s
  | .resolveExport id => exportDataResolve id s
  | .rejectExport id => exportDataReject id s

/-- Execution of a whole action trace from the initial module state. -/
def run (as : List UIAction) : AppState :=
  as.foldl step initState

/-- Most recently applied response of a class, if any. -/
def lastApplied (c : OpClass) (s : AppState) : Option Nat :=
  (s.applied.find? (fun p => decide (p.1 = c))).map (fun p => p.2)

/-- Number of live requests of a class: issued, not settled, not aborted. -/
def liveCount (c : OpClass) (s : AppState) : Nat :=
  (s.inflight.filter
    (fun r => decide (r.2.1 = c) && !(s.aborted.contains r.1))).length

/-! ## Chart cache and tab switching -/

/-- ChartSeriesBundle: assoc list from chart-type identifier to (abstracted)
series payload, modelling the `data.charts` object and `cachedChartData`. -/
abbrev ChartBundle := List (String × Nat)

/-- Lookup of a chart type in a bundle (a JS property read). -/
def lookupChart (ct : String) (b : ChartBundle) : Option Nat :=
  (b.find? (fun p => decide (p.1 = ct))).map (fun p => p.2)

/-- Chart-side state: the cache `cachedChartData` (line 392), the active
chart tab (line 8), what is currently drawn, and the requests issued by the
chart layer. -/
structure ChartState where
  cache : ChartBundle
  activeChart : String
  rendered : Option (String × Nat)
  netRequests : List String
  deriving DecidableEq, Repr

/-- Chart-side effect of a successful `applyFilters` response
(dashboard.js 439-447): `cachedChartData = data.charts` replaces the cache
wholesale, then the active chart is redrawn from the new cache (for the map
tab via `renderIndiaMap(cachedChartData.map)`, which clears the drawing when
the slot is absent; for other tabs only when the slot is present). -/
def applyFiltersSuccessCharts (charts : ChartBundle) (s : ChartState) :
    ChartState :=
  { s with
    cache := charts
    rendered :=
      if s.activeChart = "map" then
        (lookupChart "map" charts).map (fun m => ("map", m))
      else
        match lookupChart s.activeChart charts with
        | some v => some (s.activeChart, v)
        | none => s.rendered }

/-- Embedding of `showChart` (dashboard.js 519-553): set the active tab;
for the map tab render from the cache map slot or call `loadMapData` on a
miss; for any other tab render from the cache slot or fetch that single
chart on a miss. -/
def showChart (ct : String) (s : ChartState) : ChartState :=
  if ct = "map" then
    match lookupChart "map" s.cache with
    | some v => { s with activeChart := ct, rendered := some ("map", v) }
    | none =>
      { s with activeChart := ct, netRequests := "/api/map" :: s.netRequests }
  else
    match lookupChart ct s.cache with
    | some v => { s with activeChart := ct, rendered := some (ct, v) }
    | none =>
      { s with
        activeChart := ct
        netRequests := ("/api/charts/" ++ ct) :: s.netRequests }

/-- Success continuation of `loadMapData` (dashboard.js 724-739): the fetched
map payload is passed straight to `renderIndiaMap(data.data)`; nothing is
written to `cachedChartData`. -/
def loadMapDataSuccess (v : Nat) (s : ChartState) : ChartState :=
  { s with rendered := some ("map", v) }

/-! ## Bulk load with retry -/

/-- Outcome of one attempt of the `/api/load` fetch inside `loadData`:
client-side 300 s abort, transport failure, non-success body, or success. -/
inductive LoadOutcome where
  | timeout
  | netError
  | serverError
  | success
  deriving DecidableEq, Repr

/-- Terminal shape of a `loadData` run. -/
inductive LoadEnd where
  | ready
  | failed
  | noOutcome
  deriving DecidableEq, Repr

/-- Observable result of a `loadData` run: terminal state, final retry
count, the cool-down delays awaited before each retry, the `dataLoaded`
flag, visibility of the welcome screen, and whether a failure toast was
shown. -/
structure LoadRun where
  result : LoadEnd
  retries : Nat
  delays : List Nat
  dataLoaded : Bool
  welcomeVisible : Bool
  toastError : Bool
  deriving DecidableEq, Repr

/-- Embedding of `loadData` (dashboard.js 166-227) over the list of
per-attempt outcomes.  Success (line 196) sets `dataLoaded`, hides the
welcome screen and ends Ready.  An `AbortError` with `retryCount < 3`
(line 215) awaits 2000 ms and recurses with `retryCount + 1`; every other
failure, and a timeout with the retries exhausted, falls through to the
Failed state: welcome screen shown again and a failure toast (221-223). -/
def loadDataRun : List LoadOutcome → Nat → LoadRun
  | [], rc =>
    { result := .noOutcome, retries := rc, delays := [],
      dataLoaded := false, welcomeVisible := true, toastError := false }
  | .success :: _, rc =>
    { result := .ready, retries := rc, delays := [],
      dataLoaded := true, welcomeVisible := false, toastError := false }
  | .netError :: _, rc =>
    { result := .failed, retries := rc, delays := [],
      dataLoaded := false, welcomeVisible := true, toastError := true }
  | .serverError :: _, rc =>
    { result := .failed, retries := rc, delays := [],
      dataLoaded := false, welcomeVisible := true, toastError := true }
  | .timeout :: rest, rc =>
    if rc < 3 then
      let r := loadDataRun rest (rc + 1)
      { r with delays := 2000 :: r.delays }
    else
      { result := .failed, retries := rc, delays := [],
        dataLoaded := false, welcomeVisible := true, toastError := true }

/-! ## Currency formatter -/

/-- Rendering of `x.toFixed(2)` for the nonnegative rational `v / d` with
`d > 0`: round half up to two decimals and print with a zero-padded
fractional part. -/
def toFixed2 (v d : Nat) : String :=
  let r := (200 * v + d) / (2 * d)
  toString (r / 100) ++ "." ++
    (if r % 100 < 10 then "0" ++ toString (r % 100) else toString (r % 100))

/-- Sign prefix computed by `formatCurrency` (dashboard.js 984). -/
def fmtSign (value : Int) : String :=
  if value < 0 then "-" else if 0 < value then "+" else ""

/-- Magnitude part of `formatCurrency` (dashboard.js 987-990), applied to
the absolute value. -/
def fmtBody (v : Nat) : String :=
  if 10000000 ≤ v then "Rs." ++ toFixed2 v 10000000 ++ " Cr"
  else if 100000 ≤ v then "Rs." ++ toFixed2 v 100000 ++ " Lakh"
  else if 1000 ≤ v then "Rs." ++ toFixed2 v 1000 ++ " K"
  else "Rs." ++ toString v

/-- Embedding of `formatCurrency` (dashboard.js 982-991) on integer
inputs. -/
def formatCurrency (value : Int) : String :=
  fmtSign value ++ fmtBody value.natAbs

/-! ## Theorems -/

/-- Helper: when every consecutive gap in a notification run is shorter than
the 300 ms quiet window, only the timer of the final notification survives
and fires. -/
theorem runDebounce_burst (pre : List NotifyEvent) (e : NotifyEvent)
    (hch : List.Chain' (fun a b => b.t < a.t + 300) (pre ++ [e])) :
    runDebounce (pre ++ [e]) = [(e.c, e.v)] := by
  induction pre with
  | nil => simp [runDebounce]
  | cons p pre2 ih =>
    have hne : pre2 ++ [e] ≠ [] := by simp
    obtain ⟨q, tail, hqt⟩ : ∃ q tail, pre2 ++ [e] = q :: tail := by
      cases h : pre2 ++ [e] with
      | nil => exact absurd h hne
      | cons a b => exact ⟨a, b, rfl⟩
    have hch2 : List.Chain' (fun a b => b.t < a.t + 300)
        (p :: (pre2 ++ [e])) := by simpa using hch
    rw [hqt] at hch2
    have hlt : q.t < p.t + 300 := (List.chain'_cons.mp hch2).1
    have hstep : runDebounce ((p :: pre2) ++ [e]) = runDebounce (pre2 ++ [e]) := by
      rw [List.cons_append, hqt]
      simp [runDebounce, Nat.not_le.mpr hlt]
    rw [hstep]
    apply ih
    have htail := (List.chain'_cons.mp hch2).2
    rw [← hqt] at htail
    exact htail

/-- C2 (amended): for a sequence of notifications all of one operation class
whose consecutive gaps are below 300 ms, exactly one downstream fetch of
that class occurs and it uses the state as of the last notification; the
earlier scheduled actions never fire.  Because the two debounced helpers
share the single `filterDebounceTimer` variable, a notification of either
class cancels the pending scheduled action of the other class just the
same: any notification arriving within 300 ms cancels the pending timer,
whatever its class. -/
theorem single_class_debounce_coalesces (c : OpClass)
    (pre : List NotifyEvent) (e : NotifyEvent)
    (hc : ∀ x ∈ pre ++ [e], x.c = c)
    (hch : List.Chain' (fun a b => b.t < a.t + 300) (pre ++ [e]))
    (a b : NotifyEvent) (rest : List NotifyEvent)
    (hshared : b.t < a.t + 300) :
    runDebounce (pre ++ [e]) = [(c, e.v)]
    ∧ runDebounce (a :: b :: rest) = runDebounce (b :: rest) := by
  constructor
  · have hb := runDebounce_burst pre e hch
    rw [hb, hc e (by simp)]
  · simp [runDebounce, Nat.not_le.mpr hshared]

/-- C2 witness: two filter notifications 100 ms apart coalesce into one
fetch carrying the second value, and a second notification 200 ms after a
first one cancels the pending timer regardless of class. -/
theorem single_class_debounce_coalesces_check :
    runDebounce ([⟨0, .filterApply, 1⟩] ++ [⟨100, .filterApply, 2⟩])
      = [(OpClass.filterApply, 2)]
    ∧ runDebounce [⟨0, .filterApply, 5⟩, ⟨200, .comparisonLoad, 6⟩]
      = runDebounce [⟨200, .comparisonLoad, 6⟩] :=
  single_class_debounce_coalesces OpClass.filterApply
    [⟨0, .filterApply, 1⟩] ⟨100, .filterApply, 2⟩
    (by decide) (by norm_num [List.chain'_cons])
    ⟨0, .filterApply, 5⟩ ⟨200, .comparisonLoad, 6⟩ [] (by norm_num)

/-- C2 counterexample: a filter notification at t = 0 followed by a
comparison notification at t = 100 produces only the comparison fetch: the
comparison notification cancels the pending filter timer because the timer
variable is shared between the classes, so the filter action scheduled at
t = 0 never fires even though no further filter notification arrived. -/
theorem cross_class_notify_cancels_other :
    runDebounce [⟨0, .filterApply, 1⟩, ⟨100, .comparisonLoad, 2⟩]
      = [(OpClass.comparisonLoad, 2)]
    ∧ (OpClass.filterApply, 1) ∉
        runDebounce [⟨0, .filterApply, 1⟩, ⟨100, .comparisonLoad, 2⟩] := by
  decide

/-- C10 (confirmed): resetFilters is idempotent on the filter controls,
restores the defaults (empty selections, comparison_type year, dimension
Overall), and each call triggers exactly one downstream filter-apply: the
direct `applyFilters()` call, while the ten debounced change triggers
coalesce on the shared timer into a final comparison-load action, never an
additional filter-apply. -/
theorem resetFilters_idempotent_single_apply (u : FilterUI) (t : Nat) :
    resetFilters (resetFilters u) = resetFilters u
    ∧ getFilters (resetFilters u) = defaultSelection
    ∧ getFilters (resetFilters (resetFilters u)) = getFilters (resetFilters u)
    ∧ (resetFilters u).comparisonType = "year"
    ∧ (resetFilters u).comparisonDimension = "Overall"
    ∧ resetFilterApplyCalls t = 1 := by
  refine ⟨rfl, rfl, rfl, rfl, rfl, ?_⟩
  have h : ¬ (t + 300 ≤ t) := by omega
  simp [resetFilterApplyCalls, resetNotifyEvents, runDebounce, h]

/-- C9 counterexample: formatCurrency applied to 9999 yields the K-suffixed
string and not a plain no-suffix rendering, because the no-suffix branch of
the source requires the absolute value to be below 1000. -/
theorem formatCurrency_9999_is_K :
    formatCurrency 9999 = "+Rs.10.00 K"
    ∧ formatCurrency 9999 ≠ "+Rs.9999" := by
  constructor
  · rfl
  · decide

/-- C9 (amended): the no-suffix band of formatCurrency is restricted to
absolute values below 1000 (999 renders with no suffix, 9999 is K-suffixed);
1500 is K-suffixed, 150000 is Lakh-suffixed, 15000000 is Cr-suffixed; the
output carries a minus prefix for negative inputs, an explicit plus prefix
for positive inputs, and no sign prefix for zero. -/
theorem formatCurrency_bands_and_sign (p n : Int) (hp : 0 < p) (hn : n < 0) :
    formatCurrency 999 = "+Rs.999"
    ∧ formatCurrency 1500 = "+Rs.1.50 K"
    ∧ formatCurrency 9999 = "+Rs.10.00 K"
    ∧ formatCurrency 150000 = "+Rs.1.50 Lakh"
    ∧ formatCurrency 15000000 = "+Rs.1.50 Cr"
    ∧ formatCurrency 0 = "Rs.0"
    ∧ formatCurrency n = "-" ++ fmtBody n.natAbs
    ∧ formatCurrency p = "+" ++ fmtBody p.natAbs := by
  refine ⟨rfl, rfl, rfl, rfl, rfl, rfl, ?_, ?_⟩
  · unfold formatCurrency fmtSign
    rw [if_pos hn]
  · unfold formatCurrency fmtSign
    rw [if_neg (by omega), if_pos hp]

/-- C9 witness: the band and sign properties evaluated at 5 and -7. -/
theorem formatCurrency_bands_and_sign_check :
    formatCurrency 999 = "+Rs.999"
    ∧ formatCurrency 1500 = "+Rs.1.50 K"
    ∧ formatCurrency 9999 = "+Rs.10.00 K"
    ∧ formatCurrency 150000 = "+Rs.1.50 Lakh"
    ∧ formatCurrency 15000000 = "+Rs.1.50 Cr"
    ∧ formatCurrency 0 = "Rs.0"
    ∧ formatCurrency (-7) = "-" ++ fmtBody (Int.natAbs (-7))
    ∧ formatCurrency 5 = "+" ++ fmtBody (Int.natAbs 5) :=
  formatCurrency_bands_and_sign 5 (-7) (by decide) (by decide)

/-- C1 counterexample: for the comparison-load class, request B issued after
request A and before A settles does not win: `loadComparison` creates no
AbortController, so when the response of B arrives first and the response of
A arrives second, the handler of A runs in full and the final comparison
state derives from A, not B. -/
theorem comparison_last_edit_wins_fails :
    lastApplied OpClass.comparisonLoad
      (run [.bulkLoadSuccess, .issueComparison 1, .issueComparison 2,
            .resolveComparison 1, .resolveComparison 0]) = some 1
    ∧ lastApplied OpClass.comparisonLoad
        (run [.bulkLoadSuccess, .issueComparison 1, .issueComparison 2,
              .resolveComparison 1, .resolveComparison 0]) ≠ some 2 := by
  decide

/-- C1 (amended): last-edit-wins holds for the filter-apply class in the
two-request supersession scenario: issuing B aborts the controller of A, so
whichever order the settlements arrive in, the applied state derives from B
and the settlement of the aborted A mutates neither the applied UI state nor
the cache; in general a settled response of an aborted filter request
applies nothing.  No such guarantee exists for the comparison-load class,
which issues requests without any cancellation handle. -/
theorem filterApply_last_edit_wins (va vb : Nat) (s : AppState) (id : Nat)
    (h1 : id ∈ s.aborted) :
    (run [.bulkLoadSuccess, .issueFilter va, .issueFilter vb]).aborted = [0]
    ∧ lastApplied OpClass.filterApply
        (step (run [.bulkLoadSuccess, .issueFilter va, .issueFilter vb])
          (.resolveFilter 1)) = some vb
    ∧ lastApplied OpClass.filterApply
        (step (step (run [.bulkLoadSuccess, .issueFilter va, .issueFilter vb])
          (.rejectFilter 0)) (.resolveFilter 1)) = some vb
    ∧ step (step (run [.bulkLoadSuccess, .issueFilter va, .issueFilter vb])
          (.resolveFilter 1)) (.resolveFilter 0)
      = step (run [.bulkLoadSuccess, .issueFilter va, .issueFilter vb])
          (.resolveFilter 1)
    ∧ (step (run [.bulkLoadSuccess, .issueFilter va, .issueFilter vb])
          (.rejectFilter 0)).applied
      = (run [.bulkLoadSuccess, .issueFilter va, .issueFilter vb]).applied
    ∧ applyFiltersResolve id s = s := by
  refine ⟨rfl, rfl, rfl, rfl, rfl, ?_⟩
  unfold applyFiltersResolve
  cases hL : lookupReq id s.inflight with
  | none => rfl
  | some cv =>
    obtain ⟨c, v⟩ := cv
    cases c with
    | filterApply => simp [h1]
    | comparisonLoad => rfl
    | insightsRefresh => rfl
    | exportOp => rfl

/-- C1 witness: the amended statement evaluated at payloads 4 and 6 and at a
concrete state in which request 0 has been aborted. -/
theorem filterApply_last_edit_wins_check :
    (run [.bulkLoadSuccess, .issueFilter 4, .issueFilter 6]).aborted = [0]
    ∧ lastApplied OpClass.filterApply
        (step (run [.bulkLoadSuccess, .issueFilter 4, .issueFilter 6])
          (.resolveFilter 1)) = some 6
    ∧ lastApplied OpClass.filterApply
        (step (step (run [.bulkLoadSuccess, .issueFilter 4, .issueFilter 6])
          (.rejectFilter 0)) (.resolveFilter 1)) = some 6
    ∧ step (step (run [.bulkLoadSuccess, .issueFilter 4, .issueFilter 6])
          (.resolveFilter 1)) (.resolveFilter 0)
      = step (run [.bulkLoadSuccess, .issueFilter 4, .issueFilter 6])
          (.resolveFilter 1)
    ∧ (step (run [.bulkLoadSuccess, .issueFilter 4, .issueFilter 6])
          (.rejectFilter 0)).applied
      = (run [.bulkLoadSuccess, .issueFilter 4, .issueFilter 6]).applied
    ∧ applyFiltersResolve 0 (run [.bulkLoadSuccess, .issueFilter 4, .issueFilter 6])
      = run [.bulkLoadSuccess, .issueFilter 4, .issueFilter 6] :=
  filterApply_last_edit_wins 4 6
    (run [.bulkLoadSuccess, .issueFilter 4, .issueFilter 6]) 0 (by decide)

/-- C3 counterexample: two comparison-load requests issued back to back are
both live afterwards, and no cancellation signal was ever triggered:
`loadComparison` never registers a handle in `pendingRequest` and never
aborts anything, so the 0-or-1-live invariant fails for that class. -/
theorem two_live_comparison_requests :
    liveCount OpClass.comparisonLoad
      (run [.bulkLoadSuccess, .issueComparison 1, .issueComparison 2]) = 2
    ∧ (run [.bulkLoadSuccess, .issueComparison 1, .issueComparison 2]).aborted
      = [] := by
  decide

/-- C3 (amended): only the filter-apply class tracks an outstanding request,
through the module-level `pendingRequest` handle: whenever a new filter
request is issued while `pendingRequest` holds a controller, that controller
is aborted before the new request is issued and the handle then points at
the new request.  Comparison-load requests are never tracked or cancelled,
and the 0-or-1-live invariant does not hold in general (the `finally` of a
settled filter request also clears the handle even when the handle already
belongs to a newer request). -/
theorem issueFilter_aborts_tracked_pending (s : AppState) (v pid : Nat)
    (h1 : s.dataLoaded = true) (h2 : s.pendingRequest = some pid) :
    (step s (.issueFilter v)).aborted = pid :: s.aborted
    ∧ (step s (.issueFilter v)).pendingRequest = some s.nextId
    ∧ (step s (.issueFilter v)).inflight
      = (s.nextId, OpClass.filterApply, v) :: s.inflight
    ∧ (step s (.issueComparison v)).pendingRequest = s.pendingRequest
    ∧ (step s (.issueComparison v)).aborted = s.aborted := by
  refine ⟨?_, ?_, ?_, ?_, ?_⟩ <;>
    simp [step, applyFiltersIssue, loadComparisonIssue, h1, h2]

/-- C3 witness: the amended statement at the state reached after one filter
request has been issued. -/
theorem issueFilter_aborts_tracked_pending_check :
    (step (run [.bulkLoadSuccess, .issueFilter 7]) (.issueFilter 9)).aborted
      = 0 :: (run [.bulkLoadSuccess, .issueFilter 7]).aborted
    ∧ (step (run [.bulkLoadSuccess, .issueFilter 7]) (.issueFilter 9)).pendingRequest
      = some (run [.bulkLoadSuccess, .issueFilter 7]).nextId
    ∧ (step (run [.bulkLoadSuccess, .issueFilter 7]) (.issueFilter 9)).inflight
      = ((run [.bulkLoadSuccess, .issueFilter 7]).nextId, OpClass.filterApply, 9)
        :: (run [.bulkLoadSuccess, .issueFilter 7]).inflight
    ∧ (step (run [.bulkLoadSuccess, .issueFilter 7]) (.issueComparison 9)).pendingRequest
      = (run [.bulkLoadSuccess, .issueFilter 7]).pendingRequest
    ∧ (step (run [.bulkLoadSuccess, .issueFilter 7]) (.issueComparison 9)).aborted
      = (run [.bulkLoadSuccess, .issueFilter 7]).aborted :=
  issueFilter_aborts_tracked_pending
    (run [.bulkLoadSuccess, .issueFilter 7]) 9 0 rfl rfl

/-- C4 (confirmed): a successful filter-apply response replaces the chart
cache wholesale with the bundle of that response and issues no request of
its own; switching afterwards to any chart type present in the bundle
issues zero network requests and renders exactly the series of that bundle
for that chart type. -/
theorem cache_replaced_and_tab_switch_hits_cache
    (s : ChartState) (charts : ChartBundle) (ct : String) (v : Nat)
    (h : lookupChart ct charts = some v) :
    (applyFiltersSuccessCharts charts s).cache = charts
    ∧ (applyFiltersSuccessCharts charts s).netRequests = s.netRequests
    ∧ (showChart ct (applyFiltersSuccessCharts charts s)).netRequests
      = s.netRequests
    ∧ (showChart ct (applyFiltersSuccessCharts charts s)).rendered
      = some (ct, v) := by
  refine ⟨rfl, rfl, ?_, ?_⟩ <;>
    by_cases hm : ct = "map"
  · subst hm; simp [showChart, applyFiltersSuccessCharts, h]
  · simp [showChart, applyFiltersSuccessCharts, hm, h]
  · subst hm; simp [showChart, applyFiltersSuccessCharts, h]
  · simp [showChart, applyFiltersSuccessCharts, hm, h]

/-- C4 witness: a bundle holding monthly and map series, applied over an
empty cache with the monthly tab active, then a switch to monthly. -/
theorem cache_replaced_and_tab_switch_hits_cache_check :
    (applyFiltersSuccessCharts [("monthly", 3), ("map", 9)]
      ⟨[], "monthly", none, []⟩).cache = [("monthly", 3), ("map", 9)]
    ∧ (applyFiltersSuccessCharts [("monthly", 3), ("map", 9)]
        ⟨[], "monthly", none, []⟩).netRequests = []
    ∧ (showChart "monthly" (applyFiltersSuccessCharts [("monthly", 3), ("map", 9)]
        ⟨[], "monthly", none, []⟩)).netRequests = []
    ∧ (showChart "monthly" (applyFiltersSuccessCharts [("monthly", 3), ("map", 9)]
        ⟨[], "monthly", none, []⟩)).rendered = some ("monthly", 3) :=
  cache_replaced_and_tab_switch_hits_cache
    ⟨[], "monthly", none, []⟩ [("monthly", 3), ("map", 9)] "monthly" 3 (by decide)

/-- C8 counterexample: switching to the map tab on a cache without a map
slot does issue the dedicated fetch, but the successful result is passed
straight to the renderer and never merged into the cache: afterwards the
map slot is still absent, refuting the claim that the result is merged into
the map slot of the cache. -/
theorem map_result_not_cached :
    (showChart "map" ⟨[("monthly", 5)], "monthly", none, []⟩).netRequests
      = ["/api/map"]
    ∧ (loadMapDataSuccess 7
        (showChart "map" ⟨[("monthly", 5)], "monthly", none, []⟩)).cache
      = [("monthly", 5)]
    ∧ lookupChart "map" (loadMapDataSuccess 7
        (showChart "map" ⟨[("monthly", 5)], "monthly", none, []⟩)).cache
      = none := by
  decide

/-- C8 (amended): when the active chart is switched to the map type and the
map series is absent from the cache, the dedicated on-demand map fetch is
issued; its successful result is rendered directly and the cache is left
entirely unchanged: every cached entry survives, nothing is invalidated,
and the map slot itself is not populated either. -/
theorem map_fetch_leaves_cache_unchanged (s : ChartState) (v : Nat)
    (h : lookupChart "map" s.cache = none) :
    (showChart "map" s).netRequests = "/api/map" :: s.netRequests
    ∧ (showChart "map" s).cache = s.cache
    ∧ (loadMapDataSuccess v (showChart "map" s)).cache = s.cache
    ∧ (loadMapDataSuccess v (showChart "map" s)).rendered = some ("map", v) := by
  refine ⟨?_, ?_, ?_, rfl⟩ <;> simp [showChart, loadMapDataSuccess, h]

/-- C8 witness: the amended statement at a cache holding only a monthly
entry. -/
theorem map_fetch_leaves_cache_unchanged_check :
    (showChart "map" ⟨[("monthly", 5)], "monthly", none, []⟩).netRequests
      = "/api/map" :: []
    ∧ (showChart "map" ⟨[("monthly", 5)], "monthly", none, []⟩).cache
      = [("monthly", 5)]
    ∧ (loadMapDataSuccess 7
        (showChart "map" ⟨[("monthly", 5)], "monthly", none, []⟩)).cache
      = [("monthly", 5)]
    ∧ (loadMapDataSuccess 7
        (showChart "map" ⟨[("monthly", 5)], "monthly", none, []⟩)).rendered
      = some ("map", 7) :=
  map_fetch_leaves_cache_unchanged ⟨[("monthly", 5)], "monthly", none, []⟩ 7
    (by decide)

/-- Helper: starting from a retry count of at most 3, a `loadData` run never
ends with more than 3 retries performed. -/
theorem loadDataRun_retries_le (outs : List LoadOutcome) : ∀ rc : Nat,
    rc ≤ 3 → (loadDataRun outs rc).retries ≤ 3 := by
  induction outs with
  | nil => intro rc h; simpa [loadDataRun] using h
  | cons o rest ih =>
    intro rc h
    cases o with
    | timeout =>
      by_cases hlt : rc < 3
      · simpa [loadDataRun, hlt] using ih (rc + 1) (by omega)
      · simpa [loadDataRun, hlt] using h
    | netError => simpa [loadDataRun] using h
    | serverError => simpa [loadDataRun] using h
    | success => simpa [loadDataRun] using h

/-- C5 (confirmed): a bulk load that times out 4 consecutive times performs
exactly 3 retries, each preceded by a 2000 ms cool-down, and then reaches
the terminal Failed state (welcome screen visible, failure toast), never a
4th retry; a retry happens only on a timeout with fewer than 3 retries
performed, awaiting the fixed cool-down and incrementing the count; a
network or server error fails immediately with no retry; and no run started
at retry count 0 ever performs more than 3 retries. -/
theorem bulk_load_retry_policy (rest1 rest2 rest3 : List LoadOutcome)
    (rc1 rc2 : Nat) (h1 : rc1 < 3) (h2 : 3 ≤ rc2) :
    loadDataRun [.timeout, .timeout, .timeout, .timeout] 0
      = { result := .failed, retries := 3, delays := [2000, 2000, 2000],
          dataLoaded := false, welcomeVisible := true, toastError := true }
    ∧ loadDataRun (.timeout :: rest1) rc1
      = { loadDataRun rest1 (rc1 + 1) with
          delays := 2000 :: (loadDataRun rest1 (rc1 + 1)).delays }
    ∧ loadDataRun (.timeout :: rest2) rc2
      = { result := .failed, retries := rc2, delays := [],
          dataLoaded := false, welcomeVisible := true, toastError := true }
    ∧ loadDataRun (.netError :: rest3) rc1
      = { result := .failed, retries := rc1, delays := [],
          dataLoaded := false, welcomeVisible := true, toastError := true }
    ∧ loadDataRun (.serverError :: rest3) rc1
      = { result := .failed, retries := rc1, delays := [],
          dataLoaded := false, welcomeVisible := true, toastError := true }
    ∧ (∀ outs : List LoadOutcome, (loadDataRun outs 0).retries ≤ 3) := by
  refine ⟨by decide, ?_, ?_, rfl, rfl,
    fun outs => loadDataRun_retries_le outs 0 (by omega)⟩
  · simp [loadDataRun, h1]
  · simp [loadDataRun, Nat.not_lt.mpr h2]

/-- C5 witness: the retry equation at retry count 0 and the exhaustion
equation at retry count 3, both on a single-timeout outcome list. -/
theorem bulk_load_retry_policy_check :
    loadDataRun [.timeout] 0
      = { loadDataRun [] 1 with delays := 2000 :: (loadDataRun [] 1).delays }
    ∧ loadDataRun [.timeout] 3
      = { result := .failed, retries := 3, delays := [],
          dataLoaded := false, welcomeVisible := true, toastError := true } :=
  ⟨(bulk_load_retry_policy [] [] [] 0 3 (by decide) (by decide)).2.1,
   (bulk_load_retry_policy [] [] [] 0 3 (by decide) (by decide)).2.2.1⟩

/-- Helper: the `dataLoaded` flag of a bulk-load run is set exactly when the
run ends Ready, i.e. only after the load succeeds. -/
theorem loadDataRun_loaded_iff (outs : List LoadOutcome) : ∀ rc : Nat,
    ((loadDataRun outs rc).dataLoaded = true
      ↔ (loadDataRun outs rc).result = LoadEnd.ready) := by
  induction outs with
  | nil => intro rc; simp [loadDataRun]
  | cons o rest ih =>
    intro rc
    cases o with
    | timeout =>
      by_cases h : rc < 3
      · simpa [loadDataRun, h] using ih (rc + 1)
      · simp [loadDataRun, h]
    | netError => simp [loadDataRun]
    | serverError => simp [loadDataRun]
    | success => simp [loadDataRun]

/-- C6 counterexample: while `dataLoaded` is false, `exportData` is not a
no-op: invoked on the initial state it issues the export network request,
because the function has no `dataLoaded` guard, unlike `applyFilters` and
`loadComparison` which do return early. -/
theorem export_not_gated :
    initState.dataLoaded = false
    ∧ (run [.issueExport 5]).inflight = [(0, OpClass.exportOp, 5)]
    ∧ run [.issueFilter 5] = initState
    ∧ run [.issueComparison 5] = initState := by
  decide

/-- C6 (amended): while `dataLoaded` is false, filter-apply and
comparison-load invocations are complete no-ops (no request, no state
change), and the flag becomes true exactly when the initial bulk load ends
Ready; the export operation, however, is not gated and issues its request
regardless of the flag. -/
theorem gating_filter_comparison_not_export (s : AppState) (v : Nat)
    (outs : List LoadOutcome) (h : s.dataLoaded = false) :
    step s (.issueFilter v) = s
    ∧ step s (.issueComparison v) = s
    ∧ ((loadDataRun outs 0).dataLoaded = true
        ↔ (loadDataRun outs 0).result = LoadEnd.ready)
    ∧ (step s (.issueExport v)).inflight
      = (s.nextId, OpClass.exportOp, v) :: s.inflight := by
  refine ⟨?_, ?_, loadDataRun_loaded_iff outs 0, rfl⟩
  · simp [step, applyFiltersIssue, h]
  · simp [step, loadComparisonIssue, h]

/-- C6 witness: the amended statement at the initial state and a
single-outcome successful load. -/
theorem gating_filter_comparison_not_export_check :
    step initState (.issueFilter 3) = initState
    ∧ step initState (.issueComparison 3) = initState
    ∧ ((loadDataRun [.success] 0).dataLoaded = true
        ↔ (loadDataRun [.success] 0).result = LoadEnd.ready)
    ∧ (step initState (.issueExport 3)).inflight
      = (initState.nextId, OpClass.exportOp, 3) :: initState.inflight :=
  gating_filter_comparison_not_export initState 3 [.success] rfl

/-- C7 counterexample: a failed filter-apply request leaves the applied
state untouched but surfaces no notification at all: the catch block of
`applyFilters` only logs to the console, so after the failure the toast list
is empty, refuting the claim that every failed interactive request is
surfaced to the user as a transient notification. -/
theorem filter_failure_shows_no_toast :
    (run [.bulkLoadSuccess, .issueFilter 1]).inflight
      = [(0, OpClass.filterApply, 1)]
    ∧ (run [.bulkLoadSuccess, .issueFilter 1, .rejectFilter 0]).toasts = []
    ∧ (run [.bulkLoadSuccess, .issueFilter 1, .rejectFilter 0]).applied = [] := by
  decide

/-- C7 (amended): every failed interactive request (filter-apply,
comparison-load, insights-refresh, export) leaves the applied on-screen
state and cache untouched, so no partial overwrite occurs; but only export
failures are surfaced to the user as a toast, while filter-apply,
comparison-load and insights failures are logged to the console without any
user-visible notification. -/
theorem interactive_failures_preserve_state (s : AppState) (id : Nat) :
    (step s (.rejectFilter id)).applied = s.applied
    ∧ (step s (.rejectComparison id)).applied = s.applied
    ∧ (step s (.rejectInsights id)).applied = s.applied
    ∧ (step s (.rejectExport id)).applied = s.applied
    ∧ (step s (.rejectFilter id)).toasts = s.toasts
    ∧ (step s (.rejectComparison id)).toasts = s.toasts
    ∧ (step s (.rejectInsights id)).toasts = s.toasts
    ∧ (step s (.rejectExport id)).toasts = toastExportError :: s.toasts :=
  ⟨rfl, rfl, rfl, rfl, rfl, rfl, rfl, rfl⟩
